import Mathlib

/-!
# Verification of the opcode table of `src/sqlcipher3/src/sqlcipher/tsrc/opcodes.h`

This file embeds the generated opcode table of the bytecode virtual machine:
the opcode identifiers (`OP_Savepoint` = 0 … `OP_Abortable` = 190), the
per-opcode operand-role flag constants (`OPFLG_JUMP` … `OPFLG_JUMP0`), the
191-entry flag table given by the `OPFLG_INITIALIZER` macro, and the constant
`SQLITE_MX_JUMP_OPCODE`.  On top of the table we model (from the natural
language specification, since their C sources are not part of this
repository) the operand-role resolution pass and the binary
arithmetic/comparison opcode semantics, and prove the stated properties.
-/

namespace Opcodes

/-- `OPFLG_JUMP 0x01`: P2 holds the jump target. -/
def OPFLG_JUMP : Nat := 0x01
/-- `OPFLG_IN1 0x02`: P1 is an input. -/
def OPFLG_IN1 : Nat := 0x02
/-- `OPFLG_IN2 0x04`: P2 is an input. -/
def OPFLG_IN2 : Nat := 0x04
/-- `OPFLG_IN3 0x08`: P3 is an input. -/
def OPFLG_IN3 : Nat := 0x08
/-- `OPFLG_OUT2 0x10`: P2 is an output. -/
def OPFLG_OUT2 : Nat := 0x10
/-- `OPFLG_OUT3 0x20`: P3 is an output. -/
def OPFLG_OUT3 : Nat := 0x20
/-- `OPFLG_NCYCLE 0x40`: cycles count against P1. -/
def OPFLG_NCYCLE : Nat := 0x40
/-- `OPFLG_JUMP0 0x80`: P2 might be zero (jump target may be zero). -/
def OPFLG_JUMP0 : Nat := 0x80

/-- The 191-entry flag table given by the `OPFLG_INITIALIZER` macro,
transcribed row by row (eight entries per row, indices 0–190). -/
def opflgTable : List Nat :=
  [ 0x00, 0x00, 0x00, 0x00, 0x10, 0x00, 0x41, 0x00,
    0x81, 0x01, 0x01, 0x81, 0x83, 0x83, 0x01, 0x01,
    0x03, 0x03, 0x01, 0x12, 0x01, 0xc9, 0xc9, 0xc9,
    0xc9, 0x01, 0x49, 0x49, 0x49, 0x49, 0xc9, 0x49,
    0xc1, 0x01, 0x41, 0x41, 0xc1, 0x01, 0x01, 0x41,
    0x41, 0x41, 0x41, 0x26, 0x26, 0x41, 0x41, 0x23,
    0x0b, 0x81, 0x01, 0x03, 0x03, 0x0b, 0x0b, 0x0b,
    0x0b, 0x0b, 0x0b, 0x01, 0x03, 0x03, 0x03, 0x01,
    0x41, 0x01, 0x00, 0x00, 0x02, 0x02, 0x08, 0x00,
    0x10, 0x10, 0x10, 0x00, 0x10, 0x00, 0x10, 0x10,
    0x00, 0x00, 0x10, 0x10, 0x00, 0x00, 0x00, 0x02,
    0x02, 0x02, 0x00, 0x00, 0x12, 0x1e, 0x20, 0x40,
    0x00, 0x00, 0x00, 0x10, 0x10, 0x00, 0x40, 0x26,
    0x26, 0x26, 0x26, 0x26, 0x26, 0x26, 0x26, 0x26,
    0x26, 0x40, 0x00, 0x12, 0x40, 0x40, 0x10, 0x40,
    0x00, 0x00, 0x00, 0x40, 0x00, 0x40, 0x40, 0x10,
    0x10, 0x00, 0x00, 0x00, 0x00, 0x00, 0x40, 0x00,
    0x50, 0x00, 0x40, 0x04, 0x04, 0x00, 0x40, 0x50,
    0x40, 0x10, 0x00, 0x00, 0x10, 0x00, 0x00, 0x00,
    0x00, 0x00, 0x10, 0x00, 0x00, 0x06, 0x10, 0x00,
    0x04, 0x1a, 0x00, 0x00, 0x00, 0x00, 0x00, 0x00,
    0x00, 0x00, 0x00, 0x00, 0x00, 0x00, 0x40, 0x10,
    0x50, 0x40, 0x00, 0x10, 0x10, 0x02, 0x12, 0x12,
    0x00, 0x00, 0x00, 0x00, 0x00, 0x00, 0x00 ]

/-- Reading the static flag table at an opcode value
(`sqlite3OpcodeProperty[v]` in the consuming C code; out-of-range
reads default to 0). -/
def sqlite3OpcodeProperty (v : Nat) : Nat := opflgTable.getD v 0

/-- `SQLITE_MX_JUMP_OPCODE 65`: the maximum JUMP opcode. -/
def SQLITE_MX_JUMP_OPCODE : Nat := 65

/-- Bit test on a flag byte, as the C code's `(flags & OPFLG_X) != 0`. -/
def hasFlag (flags bit : Nat) : Bool := flags &&& bit ≠ 0

/-- `OP_Savepoint 0` -/
def OP_Savepoint : Nat := 0
/-- `OP_AutoCommit 1` -/
def OP_AutoCommit : Nat := 1
/-- `OP_Transaction 2` -/
def OP_Transaction : Nat := 2
/-- `OP_Checkpoint 3` -/
def OP_Checkpoint : Nat := 3
/-- `OP_JournalMode 4` -/
def OP_JournalMode : Nat := 4
/-- `OP_Vacuum 5` -/
def OP_Vacuum : Nat := 5
/-- `OP_VFilter 6` -/
def OP_VFilter : Nat := 6
/-- `OP_VUpdate 7` -/
def OP_VUpdate : Nat := 7
/-- `OP_Init 8` -/
def OP_Init : Nat := 8
/-- `OP_Goto 9` -/
def OP_Goto : Nat := 9
/-- `OP_Gosub 10` -/
def OP_Gosub : Nat := 10
/-- `OP_InitCoroutine 11` -/
def OP_InitCoroutine : Nat := 11
/-- `OP_Yield 12` -/
def OP_Yield : Nat := 12
/-- `OP_MustBeInt 13` -/
def OP_MustBeInt : Nat := 13
/-- `OP_Jump 14` -/
def OP_Jump : Nat := 14
/-- `OP_Once 15` -/
def OP_Once : Nat := 15
/-- `OP_If 16` -/
def OP_If : Nat := 16
/-- `OP_IfNot 17` -/
def OP_IfNot : Nat := 17
/-- `OP_IsType 18` -/
def OP_IsType : Nat := 18
/-- `OP_Not 19` -/
def OP_Not : Nat := 19
/-- `OP_IfNullRow 20` -/
def OP_IfNullRow : Nat := 20
/-- `OP_SeekLT 21` -/
def OP_SeekLT : Nat := 21
/-- `OP_SeekLE 22` -/
def OP_SeekLE : Nat := 22
/-- `OP_SeekGE 23` -/
def OP_SeekGE : Nat := 23
/-- `OP_SeekGT 24` -/
def OP_SeekGT : Nat := 24
/-- `OP_IfNotOpen 25` -/
def OP_IfNotOpen : Nat := 25
/-- `OP_IfNoHope 26` -/
def OP_IfNoHope : Nat := 26
/-- `OP_NoConflict 27` -/
def OP_NoConflict : Nat := 27
/-- `OP_NotFound 28` -/
def OP_NotFound : Nat := 28
/-- `OP_Found 29` -/
def OP_Found : Nat := 29
/-- `OP_SeekRowid 30` -/
def OP_SeekRowid : Nat := 30
/-- `OP_NotExists 31` -/
def OP_NotExists : Nat := 31
/-- `OP_Last 32` -/
def OP_Last : Nat := 32
/-- `OP_IfSizeBetween 33` -/
def OP_IfSizeBetween : Nat := 33
/-- `OP_SorterSort 34` -/
def OP_SorterSort : Nat := 34
/-- `OP_Sort 35` -/
def OP_Sort : Nat := 35
/-- `OP_Rewind 36` -/
def OP_Rewind : Nat := 36
/-- `OP_IfEmpty 37` -/
def OP_IfEmpty : Nat := 37
/-- `OP_SorterNext 38` -/
def OP_SorterNext : Nat := 38
/-- `OP_Prev 39` -/
def OP_Prev : Nat := 39
/-- `OP_Next 40` -/
def OP_Next : Nat := 40
/-- `OP_IdxLE 41` -/
def OP_IdxLE : Nat := 41
/-- `OP_IdxGT 42` -/
def OP_IdxGT : Nat := 42
/-- `OP_Or 43` -/
def OP_Or : Nat := 43
/-- `OP_And 44` -/
def OP_And : Nat := 44
/-- `OP_IdxLT 45` -/
def OP_IdxLT : Nat := 45
/-- `OP_IdxGE 46` -/
def OP_IdxGE : Nat := 46
/-- `OP_RowSetRead 47` -/
def OP_RowSetRead : Nat := 47
/-- `OP_RowSetTest 48` -/
def OP_RowSetTest : Nat := 48
/-- `OP_Program 49` -/
def OP_Program : Nat := 49
/-- `OP_FkIfZero 50` -/
def OP_FkIfZero : Nat := 50
/-- `OP_IsNull 51` -/
def OP_IsNull : Nat := 51
/-- `OP_NotNull 52` -/
def OP_NotNull : Nat := 52
/-- `OP_Ne 53` -/
def OP_Ne : Nat := 53
/-- `OP_Eq 54` -/
def OP_Eq : Nat := 54
/-- `OP_Gt 55` -/
def OP_Gt : Nat := 55
/-- `OP_Le 56` -/
def OP_Le : Nat := 56
/-- `OP_Lt 57` -/
def OP_Lt : Nat := 57
/-- `OP_Ge 58` -/
def OP_Ge : Nat := 58
/-- `OP_ElseEq 59` -/
def OP_ElseEq : Nat := 59
/-- `OP_IfPos 60` -/
def OP_IfPos : Nat := 60
/-- `OP_IfNotZero 61` -/
def OP_IfNotZero : Nat := 61
/-- `OP_DecrJumpZero 62` -/
def OP_DecrJumpZero : Nat := 62
/-- `OP_IncrVacuum 63` -/
def OP_IncrVacuum : Nat := 63
/-- `OP_VNext 64` -/
def OP_VNext : Nat := 64
/-- `OP_Filter 65` -/
def OP_Filter : Nat := 65
/-- `OP_PureFunc 66` -/
def OP_PureFunc : Nat := 66
/-- `OP_Function 67` -/
def OP_Function : Nat := 67
/-- `OP_Return 68` -/
def OP_Return : Nat := 68
/-- `OP_EndCoroutine 69` -/
def OP_EndCoroutine : Nat := 69
/-- `OP_HaltIfNull 70` -/
def OP_HaltIfNull : Nat := 70
/-- `OP_Halt 71` -/
def OP_Halt : Nat := 71
/-- `OP_Integer 72` -/
def OP_Integer : Nat := 72
/-- `OP_Int64 73` -/
def OP_Int64 : Nat := 73
/-- `OP_String 74` -/
def OP_String : Nat := 74
/-- `OP_BeginSubrtn 75` -/
def OP_BeginSubrtn : Nat := 75
/-- `OP_Null 76` -/
def OP_Null : Nat := 76
/-- `OP_SoftNull 77` -/
def OP_SoftNull : Nat := 77
/-- `OP_Blob 78` -/
def OP_Blob : Nat := 78
/-- `OP_Variable 79` -/
def OP_Variable : Nat := 79
/-- `OP_Move 80` -/
def OP_Move : Nat := 80
/-- `OP_Copy 81` -/
def OP_Copy : Nat := 81
/-- `OP_SCopy 82` -/
def OP_SCopy : Nat := 82
/-- `OP_IntCopy 83` -/
def OP_IntCopy : Nat := 83
/-- `OP_FkCheck 84` -/
def OP_FkCheck : Nat := 84
/-- `OP_ResultRow 85` -/
def OP_ResultRow : Nat := 85
/-- `OP_CollSeq 86` -/
def OP_CollSeq : Nat := 86
/-- `OP_AddImm 87` -/
def OP_AddImm : Nat := 87
/-- `OP_RealAffinity 88` -/
def OP_RealAffinity : Nat := 88
/-- `OP_Cast 89` -/
def OP_Cast : Nat := 89
/-- `OP_Permutation 90` -/
def OP_Permutation : Nat := 90
/-- `OP_Compare 91` -/
def OP_Compare : Nat := 91
/-- `OP_IsTrue 92` -/
def OP_IsTrue : Nat := 92
/-- `OP_ZeroOrNull 93` -/
def OP_ZeroOrNull : Nat := 93
/-- `OP_Offset 94` -/
def OP_Offset : Nat := 94
/-- `OP_Column 95` -/
def OP_Column : Nat := 95
/-- `OP_TypeCheck 96` -/
def OP_TypeCheck : Nat := 96
/-- `OP_Affinity 97` -/
def OP_Affinity : Nat := 97
/-- `OP_MakeRecord 98` -/
def OP_MakeRecord : Nat := 98
/-- `OP_Count 99` -/
def OP_Count : Nat := 99
/-- `OP_ReadCookie 100` -/
def OP_ReadCookie : Nat := 100
/-- `OP_SetCookie 101` -/
def OP_SetCookie : Nat := 101
/-- `OP_ReopenIdx 102` -/
def OP_ReopenIdx : Nat := 102
/-- `OP_BitAnd 103` -/
def OP_BitAnd : Nat := 103
/-- `OP_BitOr 104` -/
def OP_BitOr : Nat := 104
/-- `OP_ShiftLeft 105` -/
def OP_ShiftLeft : Nat := 105
/-- `OP_ShiftRight 106` -/
def OP_ShiftRight : Nat := 106
/-- `OP_Add 107` -/
def OP_Add : Nat := 107
/-- `OP_Subtract 108` -/
def OP_Subtract : Nat := 108
/-- `OP_Multiply 109` -/
def OP_Multiply : Nat := 109
/-- `OP_Divide 110` -/
def OP_Divide : Nat := 110
/-- `OP_Remainder 111` -/
def OP_Remainder : Nat := 111
/-- `OP_Concat 112` -/
def OP_Concat : Nat := 112
/-- `OP_OpenRead 113` -/
def OP_OpenRead : Nat := 113
/-- `OP_OpenWrite 114` -/
def OP_OpenWrite : Nat := 114
/-- `OP_BitNot 115` -/
def OP_BitNot : Nat := 115
/-- `OP_OpenDup 116` -/
def OP_OpenDup : Nat := 116
/-- `OP_OpenAutoindex 117` -/
def OP_OpenAutoindex : Nat := 117
/-- `OP_String8 118` -/
def OP_String8 : Nat := 118
/-- `OP_OpenEphemeral 119` -/
def OP_OpenEphemeral : Nat := 119
/-- `OP_SorterOpen 120` -/
def OP_SorterOpen : Nat := 120
/-- `OP_SequenceTest 121` -/
def OP_SequenceTest : Nat := 121
/-- `OP_OpenPseudo 122` -/
def OP_OpenPseudo : Nat := 122
/-- `OP_Close 123` -/
def OP_Close : Nat := 123
/-- `OP_ColumnsUsed 124` -/
def OP_ColumnsUsed : Nat := 124
/-- `OP_SeekScan 125` -/
def OP_SeekScan : Nat := 125
/-- `OP_SeekHit 126` -/
def OP_SeekHit : Nat := 126
/-- `OP_Sequence 127` -/
def OP_Sequence : Nat := 127
/-- `OP_NewRowid 128` -/
def OP_NewRowid : Nat := 128
/-- `OP_Insert 129` -/
def OP_Insert : Nat := 129
/-- `OP_RowCell 130` -/
def OP_RowCell : Nat := 130
/-- `OP_Delete 131` -/
def OP_Delete : Nat := 131
/-- `OP_ResetCount 132` -/
def OP_ResetCount : Nat := 132
/-- `OP_SorterCompare 133` -/
def OP_SorterCompare : Nat := 133
/-- `OP_SorterData 134` -/
def OP_SorterData : Nat := 134
/-- `OP_RowData 135` -/
def OP_RowData : Nat := 135
/-- `OP_Rowid 136` -/
def OP_Rowid : Nat := 136
/-- `OP_NullRow 137` -/
def OP_NullRow : Nat := 137
/-- `OP_SeekEnd 138` -/
def OP_SeekEnd : Nat := 138
/-- `OP_IdxInsert 139` -/
def OP_IdxInsert : Nat := 139
/-- `OP_SorterInsert 140` -/
def OP_SorterInsert : Nat := 140
/-- `OP_IdxDelete 141` -/
def OP_IdxDelete : Nat := 141
/-- `OP_DeferredSeek 142` -/
def OP_DeferredSeek : Nat := 142
/-- `OP_IdxRowid 143` -/
def OP_IdxRowid : Nat := 143
/-- `OP_FinishSeek 144` -/
def OP_FinishSeek : Nat := 144
/-- `OP_Destroy 145` -/
def OP_Destroy : Nat := 145
/-- `OP_Clear 146` -/
def OP_Clear : Nat := 146
/-- `OP_ResetSorter 147` -/
def OP_ResetSorter : Nat := 147
/-- `OP_CreateBtree 148` -/
def OP_CreateBtree : Nat := 148
/-- `OP_SqlExec 149` -/
def OP_SqlExec : Nat := 149
/-- `OP_ParseSchema 150` -/
def OP_ParseSchema : Nat := 150
/-- `OP_LoadAnalysis 151` -/
def OP_LoadAnalysis : Nat := 151
/-- `OP_DropTable 152` -/
def OP_DropTable : Nat := 152
/-- `OP_DropIndex 153` -/
def OP_DropIndex : Nat := 153
/-- `OP_Real 154` -/
def OP_Real : Nat := 154
/-- `OP_DropTrigger 155` -/
def OP_DropTrigger : Nat := 155
/-- `OP_IntegrityCk 156` -/
def OP_IntegrityCk : Nat := 156
/-- `OP_RowSetAdd 157` -/
def OP_RowSetAdd : Nat := 157
/-- `OP_Param 158` -/
def OP_Param : Nat := 158
/-- `OP_FkCounter 159` -/
def OP_FkCounter : Nat := 159
/-- `OP_MemMax 160` -/
def OP_MemMax : Nat := 160
/-- `OP_OffsetLimit 161` -/
def OP_OffsetLimit : Nat := 161
/-- `OP_AggInverse 162` -/
def OP_AggInverse : Nat := 162
/-- `OP_AggStep 163` -/
def OP_AggStep : Nat := 163
/-- `OP_AggStep1 164` -/
def OP_AggStep1 : Nat := 164
/-- `OP_AggValue 165` -/
def OP_AggValue : Nat := 165
/-- `OP_AggFinal 166` -/
def OP_AggFinal : Nat := 166
/-- `OP_Expire 167` -/
def OP_Expire : Nat := 167
/-- `OP_CursorLock 168` -/
def OP_CursorLock : Nat := 168
/-- `OP_CursorUnlock 169` -/
def OP_CursorUnlock : Nat := 169
/-- `OP_TableLock 170` -/
def OP_TableLock : Nat := 170
/-- `OP_VBegin 171` -/
def OP_VBegin : Nat := 171
/-- `OP_VCreate 172` -/
def OP_VCreate : Nat := 172
/-- `OP_VDestroy 173` -/
def OP_VDestroy : Nat := 173
/-- `OP_VOpen 174` -/
def OP_VOpen : Nat := 174
/-- `OP_VCheck 175` -/
def OP_VCheck : Nat := 175
/-- `OP_VInitIn 176` -/
def OP_VInitIn : Nat := 176
/-- `OP_VColumn 177` -/
def OP_VColumn : Nat := 177
/-- `OP_VRename 178` -/
def OP_VRename : Nat := 178
/-- `OP_Pagecount 179` -/
def OP_Pagecount : Nat := 179
/-- `OP_MaxPgcnt 180` -/
def OP_MaxPgcnt : Nat := 180
/-- `OP_ClrSubtype 181` -/
def OP_ClrSubtype : Nat := 181
/-- `OP_GetSubtype 182` -/
def OP_GetSubtype : Nat := 182
/-- `OP_SetSubtype 183` -/
def OP_SetSubtype : Nat := 183
/-- `OP_FilterAdd 184` -/
def OP_FilterAdd : Nat := 184
/-- `OP_Trace 185` -/
def OP_Trace : Nat := 185
/-- `OP_CursorHint 186` -/
def OP_CursorHint : Nat := 186
/-- `OP_ReleaseReg 187` -/
def OP_ReleaseReg : Nat := 187
/-- `OP_Noop 188` -/
def OP_Noop : Nat := 188
/-- `OP_Explain 189` -/
def OP_Explain : Nat := 189
/-- `OP_Abortable 190` -/
def OP_Abortable : Nat := 190

/-- The list of all defined opcode identifiers, in definition order. -/
def opcodeValues : List Nat :=
  [ OP_Savepoint, OP_AutoCommit, OP_Transaction, OP_Checkpoint, OP_JournalMode, OP_Vacuum,
    OP_VFilter, OP_VUpdate, OP_Init, OP_Goto, OP_Gosub, OP_InitCoroutine,
    OP_Yield, OP_MustBeInt, OP_Jump, OP_Once, OP_If, OP_IfNot,
    OP_IsType, OP_Not, OP_IfNullRow, OP_SeekLT, OP_SeekLE, OP_SeekGE,
    OP_SeekGT, OP_IfNotOpen, OP_IfNoHope, OP_NoConflict, OP_NotFound, OP_Found,
    OP_SeekRowid, OP_NotExists, OP_Last, OP_IfSizeBetween, OP_SorterSort, OP_Sort,
    OP_Rewind, OP_IfEmpty, OP_SorterNext, OP_Prev, OP_Next, OP_IdxLE,
    OP_IdxGT, OP_Or, OP_And, OP_IdxLT, OP_IdxGE, OP_RowSetRead,
    OP_RowSetTest, OP_Program, OP_FkIfZero, OP_IsNull, OP_NotNull, OP_Ne,
    OP_Eq, OP_Gt, OP_Le, OP_Lt, OP_Ge, OP_ElseEq,
    OP_IfPos, OP_IfNotZero, OP_DecrJumpZero, OP_IncrVacuum, OP_VNext, OP_Filter,
    OP_PureFunc, OP_Function, OP_Return, OP_EndCoroutine, OP_HaltIfNull, OP_Halt,
    OP_Integer, OP_Int64, OP_String, OP_BeginSubrtn, OP_Null, OP_SoftNull,
    OP_Blob, OP_Variable, OP_Move, OP_Copy, OP_SCopy, OP_IntCopy,
    OP_FkCheck, OP_ResultRow, OP_CollSeq, OP_AddImm, OP_RealAffinity, OP_Cast,
    OP_Permutation, OP_Compare, OP_IsTrue, OP_ZeroOrNull, OP_Offset, OP_Column,
    OP_TypeCheck, OP_Affinity, OP_MakeRecord, OP_Count, OP_ReadCookie, OP_SetCookie,
    OP_ReopenIdx, OP_BitAnd, OP_BitOr, OP_ShiftLeft, OP_ShiftRight, OP_Add,
    OP_Subtract, OP_Multiply, OP_Divide, OP_Remainder, OP_Concat, OP_OpenRead,
    OP_OpenWrite, OP_BitNot, OP_OpenDup, OP_OpenAutoindex, OP_String8, OP_OpenEphemeral,
    OP_SorterOpen, OP_SequenceTest, OP_OpenPseudo, OP_Close, OP_ColumnsUsed, OP_SeekScan,
    OP_SeekHit, OP_Sequence, OP_NewRowid, OP_Insert, OP_RowCell, OP_Delete,
    OP_ResetCount, OP_SorterCompare, OP_SorterData, OP_RowData, OP_Rowid, OP_NullRow,
    OP_SeekEnd, OP_IdxInsert, OP_SorterInsert, OP_IdxDelete, OP_DeferredSeek, OP_IdxRowid,
    OP_FinishSeek, OP_Destroy, OP_Clear, OP_ResetSorter, OP_CreateBtree, OP_SqlExec,
    OP_ParseSchema, OP_LoadAnalysis, OP_DropTable, OP_DropIndex, OP_Real, OP_DropTrigger,
    OP_IntegrityCk, OP_RowSetAdd, OP_Param, OP_FkCounter, OP_MemMax, OP_OffsetLimit,
    OP_AggInverse, OP_AggStep, OP_AggStep1, OP_AggValue, OP_AggFinal, OP_Expire,
    OP_CursorLock, OP_CursorUnlock, OP_TableLock, OP_VBegin, OP_VCreate, OP_VDestroy,
    OP_VOpen, OP_VCheck, OP_VInitIn, OP_VColumn, OP_VRename, OP_Pagecount,
    OP_MaxPgcnt, OP_ClrSubtype, OP_GetSubtype, OP_SetSubtype, OP_FilterAdd, OP_Trace,
    OP_CursorHint, OP_ReleaseReg, OP_Noop, OP_Explain, OP_Abortable ]

/-- The jump annotation a #define comment can carry. -/
inductive JumpAnnot where
  | noJump
  | jump
  | jump0
deriving DecidableEq, Repr

/-- Per-opcode jump annotation transcribed from each #define comment (C10):
`.jump0` when the comment carries the `jump0` tag, `.jump` when it carries
the `jump` tag, `.noJump` otherwise. -/
def opcodeAnnot : List JumpAnnot :=
  [ JumpAnnot.noJump, JumpAnnot.noJump, JumpAnnot.noJump, JumpAnnot.noJump, JumpAnnot.noJump, JumpAnnot.noJump, JumpAnnot.jump, JumpAnnot.noJump,
    JumpAnnot.jump0, JumpAnnot.jump, JumpAnnot.jump, JumpAnnot.jump0, JumpAnnot.jump0, JumpAnnot.jump0, JumpAnnot.jump, JumpAnnot.jump,
    JumpAnnot.jump, JumpAnnot.jump, JumpAnnot.jump, JumpAnnot.noJump, JumpAnnot.jump, JumpAnnot.jump0, JumpAnnot.jump0, JumpAnnot.jump0,
    JumpAnnot.jump0, JumpAnnot.jump, JumpAnnot.jump, JumpAnnot.jump, JumpAnnot.jump, JumpAnnot.jump, JumpAnnot.jump0, JumpAnnot.jump,
    JumpAnnot.jump0, JumpAnnot.jump, JumpAnnot.jump, JumpAnnot.jump, JumpAnnot.jump0, JumpAnnot.jump, JumpAnnot.jump, JumpAnnot.jump,
    JumpAnnot.jump, JumpAnnot.jump, JumpAnnot.jump, JumpAnnot.noJump, JumpAnnot.noJump, JumpAnnot.jump, JumpAnnot.jump, JumpAnnot.jump,
    JumpAnnot.jump, JumpAnnot.jump0, JumpAnnot.jump, JumpAnnot.jump, JumpAnnot.jump, JumpAnnot.jump, JumpAnnot.jump, JumpAnnot.jump,
    JumpAnnot.jump, JumpAnnot.jump, JumpAnnot.jump, JumpAnnot.jump, JumpAnnot.jump, JumpAnnot.jump, JumpAnnot.jump, JumpAnnot.jump,
    JumpAnnot.jump, JumpAnnot.jump, JumpAnnot.noJump, JumpAnnot.noJump, JumpAnnot.noJump, JumpAnnot.noJump, JumpAnnot.noJump, JumpAnnot.noJump,
    JumpAnnot.noJump, JumpAnnot.noJump, JumpAnnot.noJump, JumpAnnot.noJump, JumpAnnot.noJump, JumpAnnot.noJump, JumpAnnot.noJump, JumpAnnot.noJump,
    JumpAnnot.noJump, JumpAnnot.noJump, JumpAnnot.noJump, JumpAnnot.noJump, JumpAnnot.noJump, JumpAnnot.noJump, JumpAnnot.noJump, JumpAnnot.noJump,
    JumpAnnot.noJump, JumpAnnot.noJump, JumpAnnot.noJump, JumpAnnot.noJump, JumpAnnot.noJump, JumpAnnot.noJump, JumpAnnot.noJump, JumpAnnot.noJump,
    JumpAnnot.noJump, JumpAnnot.noJump, JumpAnnot.noJump, JumpAnnot.noJump, JumpAnnot.noJump, JumpAnnot.noJump, JumpAnnot.noJump, JumpAnnot.noJump,
    JumpAnnot.noJump, JumpAnnot.noJump, JumpAnnot.noJump, JumpAnnot.noJump, JumpAnnot.noJump, JumpAnnot.noJump, JumpAnnot.noJump, JumpAnnot.noJump,
    JumpAnnot.noJump, JumpAnnot.noJump, JumpAnnot.noJump, JumpAnnot.noJump, JumpAnnot.noJump, JumpAnnot.noJump, JumpAnnot.noJump, JumpAnnot.noJump,
    JumpAnnot.noJump, JumpAnnot.noJump, JumpAnnot.noJump, JumpAnnot.noJump, JumpAnnot.noJump, JumpAnnot.noJump, JumpAnnot.noJump, JumpAnnot.noJump,
    JumpAnnot.noJump, JumpAnnot.noJump, JumpAnnot.noJump, JumpAnnot.noJump, JumpAnnot.noJump, JumpAnnot.noJump, JumpAnnot.noJump, JumpAnnot.noJump,
    JumpAnnot.noJump, JumpAnnot.noJump, JumpAnnot.noJump, JumpAnnot.noJump, JumpAnnot.noJump, JumpAnnot.noJump, JumpAnnot.noJump, JumpAnnot.noJump,
    JumpAnnot.noJump, JumpAnnot.noJump, JumpAnnot.noJump, JumpAnnot.noJump, JumpAnnot.noJump, JumpAnnot.noJump, JumpAnnot.noJump, JumpAnnot.noJump,
    JumpAnnot.noJump, JumpAnnot.noJump, JumpAnnot.noJump, JumpAnnot.noJump, JumpAnnot.noJump, JumpAnnot.noJump, JumpAnnot.noJump, JumpAnnot.noJump,
    JumpAnnot.noJump, JumpAnnot.noJump, JumpAnnot.noJump, JumpAnnot.noJump, JumpAnnot.noJump, JumpAnnot.noJump, JumpAnnot.noJump, JumpAnnot.noJump,
    JumpAnnot.noJump, JumpAnnot.noJump, JumpAnnot.noJump, JumpAnnot.noJump, JumpAnnot.noJump, JumpAnnot.noJump, JumpAnnot.noJump, JumpAnnot.noJump,
    JumpAnnot.noJump, JumpAnnot.noJump, JumpAnnot.noJump, JumpAnnot.noJump, JumpAnnot.noJump, JumpAnnot.noJump, JumpAnnot.noJump, JumpAnnot.noJump,
    JumpAnnot.noJump, JumpAnnot.noJump, JumpAnnot.noJump, JumpAnnot.noJump, JumpAnnot.noJump, JumpAnnot.noJump, JumpAnnot.noJump ]

/-- A virtual-machine instruction: an opcode value together with the integer
operand slots that matter for jump-target resolution (the out-of-band `p4`
literal and the `p5` flag byte carry no jump information). -/
structure VdbeOp where
  opcode : Nat
  p1 : Int
  p2 : Int
  p3 : Int
deriving DecidableEq, Repr

/-- Modelled from the spec: the per-instruction jump-target check of the
operand-role resolution pass (the `resolve3P2Values()` routine named by the
comment above `SQLITE_MX_JUMP_OPCODE`; its C source is not part of this
repository).  Per the spec, for every opcode flagged `IsJump` the operand
`p2` must be a valid instruction index in `[0, programLength)`, and an
opcode additionally flagged `JumpTargetMayBeZero` also accepts `p2 = 0`,
which then means fall through rather than a jump to instruction 0. -/
def jumpTargetOk (programLength : Nat) (op : VdbeOp) : Bool :=
  if hasFlag (sqlite3OpcodeProperty op.opcode) OPFLG_JUMP then
    decide ((0 ≤ op.p2 ∧ op.p2 < (programLength : Int)) ∨
      (hasFlag (sqlite3OpcodeProperty op.opcode) OPFLG_JUMP0 = true ∧ op.p2 = 0))
  else
    true

/-- Modelled from the spec: the operand-role resolution pass accepts a program
exactly when every instruction passes the jump-target check; it runs once,
before any instruction executes, and rejects the whole program otherwise. -/
def resolvePassAccepts (prog : List VdbeOp) : Bool :=
  prog.all (jumpTargetOk prog.length)

/-- The comparison opcode family. -/
def cmpFamily : List Nat := [OP_Ne, OP_Eq, OP_Gt, OP_Le, OP_Lt, OP_Ge]

/-- The arithmetic opcode family. -/
def arithFamily : List Nat :=
  [OP_BitAnd, OP_BitOr, OP_ShiftLeft, OP_ShiftRight, OP_Add, OP_Subtract,
   OP_Multiply, OP_Divide, OP_Remainder, OP_Concat]

/-- Number of register-input operand roles declared by a flag byte. -/
def declaredInputCount (f : Nat) : Nat :=
  (if hasFlag f OPFLG_IN1 then 1 else 0) +
  (if hasFlag f OPFLG_IN2 then 1 else 0) +
  (if hasFlag f OPFLG_IN3 then 1 else 0)

/-- Number of register-output operand roles declared by a flag byte. -/
def declaredOutputCount (f : Nat) : Nat :=
  (if hasFlag f OPFLG_OUT2 then 1 else 0) +
  (if hasFlag f OPFLG_OUT3 then 1 else 0)

/-- The flag-table entry of opcode `v` declares a binary register operation:
exactly two register inputs and exactly one register output. -/
def twoInOneOut (v : Nat) : Prop :=
  declaredInputCount (sqlite3OpcodeProperty v) = 2 ∧
  declaredOutputCount (sqlite3OpcodeProperty v) = 1

instance (v : Nat) : Decidable (twoInOneOut v) := by
  unfold twoInOneOut; infer_instance

/-- A register value: a tagged dynamic value as in the data model of the spec
(Null, Integer, Real, Text, Blob, RowSet).  `real` is modelled as a rational
number, since none of the properties proved here depend on floating-point
rounding. -/
inductive SqlValue where
  | null
  | integer (i : Int)
  | real (r : Rat)
  | text (bytes : List Nat)
  | blob (bytes : List Nat)
  | rowSet (keys : List Int)
deriving DecidableEq, Repr

/-- Whether a value is the Null value. -/
def SqlValue.isNull : SqlValue → Bool
  | SqlValue.null => true
  | _ => false

/-- Numeric view of a non-null value, used by the arithmetic handlers:
integers and reals are read numerically, everything else coerces to 0. -/
def SqlValue.toNum : SqlValue → Rat
  | SqlValue.integer i => (i : Rat)
  | SqlValue.real r => r
  | _ => 0

/-- 64-bit-integer view of a value, used by the bitwise and shift handlers:
reals truncate toward zero, non-numeric values coerce to 0. -/
def SqlValue.toInt64 : SqlValue → Int
  | SqlValue.integer i => i
  | SqlValue.real r => r.num / (r.den : Int)
  | _ => 0

/-- Byte-sequence view of a value, used by the concatenation handler:
text and blob values expose their bytes, numeric values their decimal
rendering. -/
def SqlValue.toBytes : SqlValue → List Nat
  | SqlValue.text bs => bs
  | SqlValue.blob bs => bs
  | SqlValue.integer i => (toString i).data.map Char.toNat
  | SqlValue.real r => (toString r).data.map Char.toNat
  | _ => []

/-- Shift of a 64-bit integer by a possibly negative amount: a negative
amount shifts in the opposite direction. -/
def intShiftLeft (x amt : Int) : Int :=
  if 0 ≤ amt then x * 2 ^ amt.toNat else x / 2 ^ (-amt).toNat

/-- Addition/subtraction/multiplication over two non-null operands: an
integer pair stays integral, any other numeric pair operates rationally. -/
def numericBinOp (f : Int → Int → Int) (g : Rat → Rat → Rat) :
    SqlValue → SqlValue → SqlValue
  | SqlValue.integer a, SqlValue.integer b => SqlValue.integer (f a b)
  | a, b => SqlValue.real (g a.toNum b.toNum)

/-- Modelled from the spec: the binary arithmetic opcode handlers of the
interpreter (the `vdbe.c` cases for `OP_BitAnd` … `OP_Concat`; their C
source is not part of this repository).  The operands are the contents of
registers P1 and P2, the result goes to register P3.  Null propagation
comes first: if either operand is Null the result is Null.  Otherwise the
operands are combined per opcode (bitwise and shift operations over the
64-bit-integer views, ring operations over the numeric views, division or
remainder by zero yielding Null, and `OP_Concat` concatenating the byte
views of r[P2] then r[P1]). -/
def vdbeBinaryArith (opcode : Nat) (in1 in2 : SqlValue) : SqlValue :=
  if in1.isNull || in2.isNull then SqlValue.null
  else if opcode = OP_BitAnd then SqlValue.integer (Int.land in1.toInt64 in2.toInt64)
  else if opcode = OP_BitOr then SqlValue.integer (Int.lor in1.toInt64 in2.toInt64)
  else if opcode = OP_ShiftLeft then SqlValue.integer (intShiftLeft in2.toInt64 in1.toInt64)
  else if opcode = OP_ShiftRight then SqlValue.integer (intShiftLeft in2.toInt64 (-in1.toInt64))
  else if opcode = OP_Add then numericBinOp (· + ·) (· + ·) in1 in2
  else if opcode = OP_Subtract then numericBinOp (fun a b => b - a) (fun a b => b - a) in1 in2
  else if opcode = OP_Multiply then numericBinOp (· * ·) (· * ·) in1 in2
  else if opcode = OP_Divide then
    (if in1.toNum = 0 then SqlValue.null else SqlValue.real (in2.toNum / in1.toNum))
  else if opcode = OP_Remainder then
    (if in1.toInt64 = 0 then SqlValue.null else SqlValue.integer (in2.toInt64 % in1.toInt64))
  else if opcode = OP_Concat then SqlValue.text (in2.toBytes ++ in1.toBytes)
  else SqlValue.null

/-- Byte-wise lexicographic comparison of two byte sequences. -/
def byteCompare : List Nat → List Nat → Ordering
  | [], [] => Ordering.eq
  | [], _ :: _ => Ordering.lt
  | _ :: _, [] => Ordering.gt
  | a :: as, b :: bs =>
    if a < b then Ordering.lt
    else if b < a then Ordering.gt
    else byteCompare as bs

/-- Rank of a value in the cross-type ordering (numerics sort together,
before text, before blob). -/
def typeRank : SqlValue → Nat
  | SqlValue.null => 0
  | SqlValue.integer _ => 1
  | SqlValue.real _ => 1
  | SqlValue.text _ => 2
  | SqlValue.blob _ => 3
  | SqlValue.rowSet _ => 4

/-- Comparison of two non-null values: values of different type ranks order
by rank, numeric pairs compare numerically, text/blob pairs byte-wise. -/
def compareNonNull (a b : SqlValue) : Ordering :=
  if typeRank a < typeRank b then Ordering.lt
  else if typeRank b < typeRank a then Ordering.gt
  else if typeRank a = 1 then
    (if a.toNum < b.toNum then Ordering.lt
     else if b.toNum < a.toNum then Ordering.gt
     else Ordering.eq)
  else byteCompare a.toBytes b.toBytes

/-- Modelled from the spec: the three-valued outcome of a comparison opcode
handler (the `vdbe.c` cases for `OP_Ne` … `OP_Ge`; their C source is not
part of this repository).  The operands compared are the contents of
registers P3 and P1 (in that order, matching the synopsis comments such as
IF r[P3]<r[P1]).  If either operand is Null the outcome is the Null truth
value `none`; otherwise `some b` where `b` is the decided comparison. -/
def vdbeComparisonResult (opcode : Nat) (in1 in3 : SqlValue) : Option Bool :=
  if in1.isNull || in3.isNull then none
  else
    (fun o =>
      if opcode = OP_Ne then some (decide (o ≠ Ordering.eq))
      else if opcode = OP_Eq then some (decide (o = Ordering.eq))
      else if opcode = OP_Gt then some (decide (o = Ordering.gt))
      else if opcode = OP_Le then some (decide (o ≠ Ordering.gt))
      else if opcode = OP_Lt then some (decide (o = Ordering.lt))
      else if opcode = OP_Ge then some (decide (o ≠ Ordering.lt))
      else none) (compareNonNull in3 in1)

/-- The eight operand-role flag constants, in source order: IsJump, Input1,
Input2, Input3, Output2, Output3, CountsAgainstCursorP1,
JumpTargetMayBeZero. -/
def opflgBits : List Nat :=
  [OPFLG_JUMP, OPFLG_IN1, OPFLG_IN2, OPFLG_IN3,
   OPFLG_OUT2, OPFLG_OUT3, OPFLG_NCYCLE, OPFLG_JUMP0]

/-- The annotation carried by the #define comment of opcode `v`. -/
def annotAt (v : Nat) : JumpAnnot := opcodeAnnot.getD v JumpAnnot.noJump

set_option maxRecDepth 100000

/-- Helper: the jump-target check of one instruction holds exactly when a
jump-flagged opcode has `p2` in `[0, programLength)` or is jump0-flagged
with `p2 = 0`. -/
theorem jumpTargetOk_iff (n : Nat) (op : VdbeOp) :
    jumpTargetOk n op = true ↔
      (hasFlag (sqlite3OpcodeProperty op.opcode) OPFLG_JUMP = true →
        (0 ≤ op.p2 ∧ op.p2 < (n : Int)) ∨
        (hasFlag (sqlite3OpcodeProperty op.opcode) OPFLG_JUMP0 = true ∧ op.p2 = 0)) := by
  unfold jumpTargetOk
  by_cases hj : hasFlag (sqlite3OpcodeProperty op.opcode) OPFLG_JUMP = true
  · simp [hj]
  · simp [hj]

/-- C1: the constant `SQLITE_MX_JUMP_OPCODE` (65) is exactly the maximum
opcode value flagged IsJump: every opcode value in 0..190 whose
`OPFLG_INITIALIZER` entry has the `OPFLG_JUMP` bit is at most 65, and the
entry at 65 itself has the `OPFLG_JUMP` bit, so the bound is tight. -/
theorem mxJumpOpcode_bound_tight :
    (∀ v < 191, hasFlag (sqlite3OpcodeProperty v) OPFLG_JUMP = true →
        v ≤ SQLITE_MX_JUMP_OPCODE) ∧
    hasFlag (sqlite3OpcodeProperty SQLITE_MX_JUMP_OPCODE) OPFLG_JUMP = true := by
  decide

/-- Witness for C1 at the concrete jump opcode `OP_Goto` (9). -/
theorem mxJumpOpcode_bound_tight_witness : OP_Goto ≤ SQLITE_MX_JUMP_OPCODE :=
  mxJumpOpcode_bound_tight.1 OP_Goto (by decide) (by decide)

/-- C2: the operand-role resolution pass accepts a program if and only if
every instruction whose opcode has the `OPFLG_JUMP` bit has `p2` in
`[0, programLength)`, except that an opcode that also has the
`OPFLG_JUMP0` bit additionally accepts `p2 = 0` (meaning fall through);
rejection happens before any instruction executes. -/
theorem resolvePass_accepts_iff (prog : List VdbeOp) :
    resolvePassAccepts prog = true ↔
      ∀ op ∈ prog,
        hasFlag (sqlite3OpcodeProperty op.opcode) OPFLG_JUMP = true →
          (0 ≤ op.p2 ∧ op.p2 < (prog.length : Int)) ∨
          (hasFlag (sqlite3OpcodeProperty op.opcode) OPFLG_JUMP0 = true ∧ op.p2 = 0) := by
  unfold resolvePassAccepts
  rw [List.all_eq_true]
  simp only [jumpTargetOk_iff]

/-- Witness for C2 at a concrete one-instruction program: a `OP_Goto 0`
self-loop has its jump target in range, so the pass accepts. -/
theorem resolvePass_accepts_iff_witness :
    resolvePassAccepts [VdbeOp.mk OP_Goto 0 0 0] = true :=
  (resolvePass_accepts_iff [VdbeOp.mk OP_Goto 0 0 0]).mpr (by decide)

/-- C3 counterexample: the claim fails on the comparison family.  `OP_Ne`
is a comparison opcode whose `OPFLG_INITIALIZER` entry declares two
register inputs (P1 and P3) but no register output at all, so it is not a
binary operation with one declared register output. -/
theorem cmpFamily_no_output_cex :
    OP_Ne ∈ cmpFamily ∧ ¬ twoInOneOut OP_Ne ∧
    declaredInputCount (sqlite3OpcodeProperty OP_Ne) = 2 ∧
    declaredOutputCount (sqlite3OpcodeProperty OP_Ne) = 0 := by
  decide

/-- C3 (amended): every arithmetic-family opcode is, per its
`OPFLG_INITIALIZER` entry, a binary operation with two declared register
inputs (`OPFLG_IN1`, `OPFLG_IN2`) and one declared register output
(`OPFLG_OUT3`); every comparison-family opcode declares two register
inputs (`OPFLG_IN1`, `OPFLG_IN3`) and no register output — it is a jump
opcode instead. -/
theorem binaryFamilies_declared_roles :
    (∀ v ∈ arithFamily,
      sqlite3OpcodeProperty v = (OPFLG_IN1 ||| OPFLG_IN2 ||| OPFLG_OUT3) ∧
      twoInOneOut v) ∧
    (∀ v ∈ cmpFamily,
      sqlite3OpcodeProperty v = (OPFLG_JUMP ||| OPFLG_IN1 ||| OPFLG_IN3) ∧
      declaredInputCount (sqlite3OpcodeProperty v) = 2 ∧
      declaredOutputCount (sqlite3OpcodeProperty v) = 0) := by
  decide

/-- Witness for the amended C3 at the concrete opcode `OP_Add`. -/
theorem binaryFamilies_declared_roles_witness :
    sqlite3OpcodeProperty OP_Add = (OPFLG_IN1 ||| OPFLG_IN2 ||| OPFLG_OUT3) ∧
    twoInOneOut OP_Add :=
  binaryFamilies_declared_roles.1 OP_Add (by decide)

/-- C4: for every opcode value in 0..190, if its `OPFLG_INITIALIZER` entry
has the `OPFLG_JUMP0` bit (0x80) set, then the entry also has the
`OPFLG_JUMP` bit (0x01) set: the zero-target allowance only occurs on jump
opcodes. -/
theorem jump0_only_on_jump :
    ∀ v < 191, hasFlag (sqlite3OpcodeProperty v) OPFLG_JUMP0 = true →
      hasFlag (sqlite3OpcodeProperty v) OPFLG_JUMP = true := by
  decide

/-- Witness for C4 at the concrete opcode `OP_Init` (8), flagged jump0. -/
theorem jump0_only_on_jump_witness :
    hasFlag (sqlite3OpcodeProperty OP_Init) OPFLG_JUMP = true :=
  jump0_only_on_jump OP_Init (by decide) (by decide)

/-- C5: the operand-role flag set consists of exactly eight roles encoded
as the eight pairwise-distinct single-bit constants 0x01 … 0x80, which are
pairwise disjoint and together cover every bit of one byte. -/
theorem opflgBits_single_disjoint_cover :
    opflgBits = [0x01, 0x02, 0x04, 0x08, 0x10, 0x20, 0x40, 0x80] ∧
    opflgBits.length = 8 ∧
    opflgBits.Nodup ∧
    (∀ b ∈ opflgBits, ∃ k < 8, b = 2 ^ k) ∧
    (∀ a ∈ opflgBits, ∀ b ∈ opflgBits, a ≠ b → a &&& b = 0) ∧
    opflgBits.foldr (fun a b => a ||| b) 0 = 0xff := by
  decide

/-- Witness for C5 at two concrete roles: IsJump and JumpTargetMayBeZero
are disjoint bits. -/
theorem opflgBits_single_disjoint_cover_witness :
    OPFLG_JUMP &&& OPFLG_JUMP0 = 0 :=
  opflgBits_single_disjoint_cover.2.2.2.2.1 OPFLG_JUMP (by decide)
    OPFLG_JUMP0 (by decide) (by decide)

/-- C6: the defined opcode identifiers take pairwise-distinct consecutive
values 0 through 190 (`opcodeValues = List.range 191`, which forces both
distinctness and consecutiveness), with `OP_Savepoint` = 0 and
`OP_Abortable` = 190, and the `OPFLG_INITIALIZER` table has exactly 191
entries, so indexing it by any defined opcode value is in bounds. -/
theorem opcodeValues_consecutive_table_inBounds :
    opcodeValues = List.range 191 ∧
    OP_Savepoint = 0 ∧
    OP_Abortable = 190 ∧
    opflgTable.length = 191 ∧
    ∀ v ∈ opcodeValues, v < opflgTable.length := by
  decide

/-- Witness for C6 at the concrete opcode `OP_Abortable` (190): the highest
opcode value still indexes the flag table in bounds. -/
theorem opcodeValues_consecutive_table_inBounds_witness :
    OP_Abortable < opflgTable.length :=
  opcodeValues_consecutive_table_inBounds.2.2.2.2 OP_Abortable (by decide)

/-- C7: for every arithmetic-family opcode and every pair of operand
values, if either operand is Null then the result of the operation is
Null, and for every comparison-family opcode the three-valued comparison
outcome is the Null truth value. -/
theorem nullPropagation (opcode : Nat) (a b : SqlValue)
    (h : a = SqlValue.null ∨ b = SqlValue.null) :
    (opcode ∈ arithFamily → vdbeBinaryArith opcode a b = SqlValue.null) ∧
    (opcode ∈ cmpFamily → vdbeComparisonResult opcode a b = none) := by
  have hnull : (a.isNull || b.isNull) = true := by
    rcases h with h | h <;> subst h <;> simp [SqlValue.isNull]
  constructor <;> intro _
  · unfold vdbeBinaryArith
    rw [if_pos hnull]
  · unfold vdbeComparisonResult
    rw [if_pos hnull]

/-- Witness for C7 at the concrete opcodes `OP_Add` and `OP_Eq` with a Null
left operand. -/
theorem nullPropagation_witness :
    vdbeBinaryArith OP_Add SqlValue.null (SqlValue.integer 7) = SqlValue.null ∧
    vdbeComparisonResult OP_Eq SqlValue.null (SqlValue.integer 7) = none :=
  ⟨(nullPropagation OP_Add SqlValue.null (SqlValue.integer 7) (Or.inl rfl)).1
      (by decide),
   (nullPropagation OP_Eq SqlValue.null (SqlValue.integer 7) (Or.inl rfl)).2
      (by decide)⟩

/-- C8: for every opcode value in 0..190, if its `OPFLG_INITIALIZER` entry
has the `OPFLG_JUMP` bit then neither `OPFLG_IN2` (0x04) nor `OPFLG_OUT2`
(0x10) is set: a P2 jump target is never simultaneously declared a data
input or output operand. -/
theorem jump_excludes_p2_data_roles :
    ∀ v < 191, hasFlag (sqlite3OpcodeProperty v) OPFLG_JUMP = true →
      hasFlag (sqlite3OpcodeProperty v) OPFLG_IN2 = false ∧
      hasFlag (sqlite3OpcodeProperty v) OPFLG_OUT2 = false := by
  decide

/-- Witness for C8 at the concrete jump opcode `OP_Goto` (9). -/
theorem jump_excludes_p2_data_roles_witness :
    hasFlag (sqlite3OpcodeProperty OP_Goto) OPFLG_IN2 = false ∧
    hasFlag (sqlite3OpcodeProperty OP_Goto) OPFLG_OUT2 = false :=
  jump_excludes_p2_data_roles OP_Goto (by decide) (by decide)

/-- C9: no `OPFLG_INITIALIZER` entry has both the `OPFLG_OUT2` (0x10) and
the `OPFLG_OUT3` (0x20) bits set: each opcode declares at most one output
register slot. -/
theorem at_most_one_output :
    ∀ v < 191, ¬(hasFlag (sqlite3OpcodeProperty v) OPFLG_OUT2 = true ∧
      hasFlag (sqlite3OpcodeProperty v) OPFLG_OUT3 = true) := by
  decide

/-- Witness for C9 at the concrete opcode `OP_NullRow` (136), whose entry
0x50 sets `OPFLG_OUT2` but not `OPFLG_OUT3`. -/
theorem at_most_one_output_witness :
    ¬(hasFlag (sqlite3OpcodeProperty OP_NullRow) OPFLG_OUT2 = true ∧
      hasFlag (sqlite3OpcodeProperty OP_NullRow) OPFLG_OUT3 = true) :=
  at_most_one_output OP_NullRow (by decide)

/-- C10: for every opcode value in 0..190, the `OPFLG_JUMP` bit of its
`OPFLG_INITIALIZER` entry is set if and only if the #define comment of the
opcode carries the jump or jump0 annotation, and the `OPFLG_JUMP0` bit is
set if and only if the comment carries the jump0 annotation: the
human-readable annotations and the encoded bitvector agree everywhere. -/
theorem annotations_agree_with_flags :
    opcodeAnnot.length = 191 ∧
    ∀ v < 191,
      (hasFlag (sqlite3OpcodeProperty v) OPFLG_JUMP = true ↔
        (annotAt v = JumpAnnot.jump ∨ annotAt v = JumpAnnot.jump0)) ∧
      (hasFlag (sqlite3OpcodeProperty v) OPFLG_JUMP0 = true ↔
        annotAt v = JumpAnnot.jump0) := by
  decide

/-- Witness for C10 at the concrete opcode `OP_Init` (8): its jump0 comment
annotation forces the `OPFLG_JUMP0` bit. -/
theorem annotations_agree_with_flags_witness :
    annotAt OP_Init = JumpAnnot.jump0 :=
  ((annotations_agree_with_flags.2 OP_Init (by decide)).2).mp (by decide)

end Opcodes
